import Mathlib

/-!
A shallow embedding of `sales_dashboard.py`: the synthetic data generator
`generate_enhanced_sales_data`, the derived-metric columns, the sidebar
filter engine, and the aggregation pipelines feeding the charts, together
with proofs of the documented properties.

Numbers are modelled as exact rationals.  The numpy pseudorandom source is
modelled by an explicit state machine whose draws provably satisfy the
documented numpy ranges (`np.random.uniform(lo, hi)` lands in `[lo, hi)`);
the Mersenne-Twister bit stream itself is not reproduced, and no proof
below depends on the particular constants of the stand-in generator.
A pandas `NaN` entry (missing value) is modelled as `Option.none`.
-/

set_option maxHeartbeats 1000000
set_option linter.unusedVariables false

namespace SalesDashboard

/-- A calendar date, as produced by `pd.date_range(start, end, freq=D)`. -/
structure Date where
  year : ℕ
  month : ℕ
  day : ℕ
deriving DecidableEq

/-- Gregorian leap-year rule, used by the daily date range. -/
def isLeapYear (y : ℕ) : Bool := y % 4 == 0 && (y % 100 != 0 || y % 400 == 0)

/-- Number of days of month `m` in year `y`. -/
def daysInMonth (y m : ℕ) : ℕ :=
  if m = 2 then (if isLeapYear y then 29 else 28)
  else if m = 4 ∨ m = 6 ∨ m = 9 ∨ m = 11 then 30
  else 31

/-- Ordinal of the date inside its year (1 for January 1). -/
def dayOfYear (d : Date) : ℕ :=
  (List.range (d.month - 1)).foldl (fun acc i => acc + daysInMonth d.year (i + 1)) 0 + d.day

/-- Rata-die style day number; orders dates and counts the days of a range. -/
def toRd (d : Date) : ℕ :=
  365 * (d.year - 1) + (d.year - 1) / 4 - (d.year - 1) / 100 + (d.year - 1) / 400 + dayOfYear d

/-- The day after `d` in the Gregorian calendar. -/
def nextDay (d : Date) : Date :=
  if d.day < daysInMonth d.year d.month then ⟨d.year, d.month, d.day + 1⟩
  else if d.month < 12 then ⟨d.year, d.month + 1, 1⟩
  else ⟨d.year + 1, 1, 1⟩

/-- `n` consecutive days starting at `d`. -/
def dateListFrom : Date → ℕ → List Date
  | _, 0 => []
  | d, n + 1 => d :: dateListFrom (nextDay d) n

/-- `pd.date_range(start, end, freq=D)`: every day from `s` to `e`
inclusive, and the empty list when `e` is before `s`. -/
def dateRange (s e : Date) : List Date :=
  if toRd e < toRd s then [] else dateListFrom s (toRd e - toRd s + 1)

/-- One step of the stand-in pseudorandom generator (a small LCG).  The
proofs only use that the derived fraction lies in `[0, 1)`. -/
def lcg (s : ℕ) : ℕ := (75 * s + 74) % 65537

/-- The next unit-interval fraction of the pseudorandom stream. -/
def nextFrac (s : ℕ) : ℚ × ℕ := ((lcg s : ℚ) / 65537, lcg s)

/-- `np.random.uniform(lo, hi)`: a draw in the half-open interval `[lo, hi)`. -/
def npUniform (lo hi : ℚ) (s : ℕ) : ℚ × ℕ :=
  (lo + (hi - lo) * (nextFrac s).1, (nextFrac s).2)

/-- `np.random.randint(lo, hi)`: an integer draw in `[lo, hi)`. -/
def npRandint (lo hi : ℕ) (s : ℕ) : ℕ × ℕ := (lo + lcg s % (hi - lo), lcg s)

/-- `np.random.choice(lst)`: a uniformly drawn element of the list. -/
def npChoice (l : List String) (s : ℕ) : String × ℕ := (l.getD (lcg s % l.length) "", lcg s)

/-- `np.random.seed(seed)` replaces the ambient global generator state with
a state determined by the seed alone; the previous state is discarded. -/
def npRandomSeed (globalState seed : ℕ) : ℕ := seed

/-- Line 17: the region enumeration. -/
def regions : List String := ["North", "South", "East", "West", "Central"]

/-- Lines 18-23: the product category enumeration. -/
def productCategories : List String := ["Electronics", "Apparel", "Home Goods", "Groceries"]

/-- Lines 18-23: the sub-categories of each product category. -/
def subCategoriesOf (c : String) : List String :=
  if c = "Electronics" then ["Smartphones", "Laptops", "Accessories"]
  else if c = "Apparel" then ["Men\x27s Clothing", "Women\x27s Clothing", "Footwear"]
  else if c = "Home Goods" then ["Furniture", "Kitchenware", "Decor"]
  else if c = "Groceries" then ["Fresh Produce", "Pantry Staples", "Beverages"]
  else []

/-- Line 24: the salesperson enumeration. -/
def salespersons : List String := ["Alice", "Bob", "Charlie", "David", "Eve", "Frank", "Grace", "Henry"]

/-- Line 43: the region multiplier table.  The dictionary maps the five
generator regions; North maps to 1.0, here reached through the final
branch (the generator only ever looks up the five listed regions). -/
def regionFactor (r : String) : ℚ :=
  if r = "South" then 9/10 else if r = "East" then 11/10
  else if r = "West" then 19/20 else if r = "Central" then 21/20 else 1

/-- Line 44: the category multiplier table; Home Goods maps to 1.0 through
the final branch. -/
def catFactor (c : String) : ℚ :=
  if c = "Electronics" then 13/10 else if c = "Apparel" then 8/10
  else if c = "Groceries" then 7/10 else 1

/-- One row appended to `data` at lines 60-72, before the derived columns. -/
structure RawRecord where
  date : Date
  region : String
  category : String
  subCategory : String
  salesperson : String
  revenue : ℚ
  unitsSold : ℤ
  targetRevenue : ℚ
  cogs : ℚ
  profit : ℚ
  previousYearRevenue : Option ℚ
deriving DecidableEq

/-- The numeric uniform draws entering one record, in source order
(lines 40-58). -/
structure Draws where
  base : ℚ
  subCat : ℚ
  noise : ℚ
  price : ℚ
  targetF : ℚ
  cogsShare : ℚ
  prevYear : ℚ
deriving DecidableEq

/-- The documented numpy ranges of the seven uniform draws: each call
`np.random.uniform(lo, hi)` lands in the half-open interval `[lo, hi)`. -/
abbrev Draws.InRange (d : Draws) : Prop :=
  20 ≤ d.base ∧ d.base < 300 ∧ 4/5 ≤ d.subCat ∧ d.subCat < 6/5 ∧
  9/10 ≤ d.noise ∧ d.noise < 11/10 ∧ 10 ≤ d.price ∧ d.price < 100 ∧
  17/20 ≤ d.targetF ∧ d.targetF < 11/10 ∧ 2/5 ≤ d.cogsShare ∧ d.cogsShare < 7/10 ∧
  19/20 ≤ d.prevYear ∧ d.prevYear < 21/20

/-- Lines 36-72: the per-record arithmetic, with the uniform draws and the
value of `sin((month - 1) * 2 * pi / 12)` supplied as parameters.  `int()`
truncation at line 48 equals the floor on the nonnegative values that
occur. -/
def mkRecordFromDraws (startYear : ℕ) (d : Date) (sinVal : ℚ)
    (region category subCategory salesperson : String) (dr : Draws) : RawRecord :=
  let yearFactor : ℚ := 1 + ((d.year : ℚ) - (startYear : ℚ)) * (8/100)
  let seasonality : ℚ := 1 + sinVal * (15/100)
  let baseRevenue := dr.base * seasonality * yearFactor
  let revenue := baseRevenue * regionFactor region * catFactor category * dr.subCat * dr.noise
  let unitsSold : ℤ := max 1 ⌊revenue / dr.price⌋
  let targetRevenue := revenue * dr.targetF
  let cogs := revenue * dr.cogsShare
  let profit := revenue - cogs
  let previousYearRevenue : Option ℚ :=
    if startYear < d.year then some (revenue / (yearFactor * dr.prevYear)) else none
  { date := d, region := region, category := category, subCategory := subCategory,
    salesperson := salesperson, revenue := revenue, unitsSold := unitsSold,
    targetRevenue := targetRevenue, cogs := cogs, profit := profit,
    previousYearRevenue := previousYearRevenue }

/-- Lines 31-58: one transaction, drawing dimension values and the uniform
factors from the pseudorandom stream in source order; the previous-year
draw at line 58 is only consumed for dates after the first simulated
year. -/
def mkRecordRng (startYear : ℕ) (d : Date) (sinFn : ℕ → ℚ) (s0 : ℕ) : RawRecord × ℕ :=
  let rc := npChoice regions s0
  let cc := npChoice productCategories rc.2
  let sc := npChoice (subCategoriesOf cc.1) cc.2
  let pc := npChoice salespersons sc.2
  let u1 := npUniform 20 300 pc.2
  let u2 := npUniform (4/5) (6/5) u1.2
  let u3 := npUniform (9/10) (11/10) u2.2
  let u4 := npUniform 10 100 u3.2
  let u5 := npUniform (17/20) (11/10) u4.2
  let u6 := npUniform (2/5) (7/10) u5.2
  let u7 := if startYear < d.year then npUniform (19/20) (21/20) u6.2 else (1, u6.2)
  (mkRecordFromDraws startYear d (sinFn d.month) rc.1 cc.1 sc.1 pc.1
    ⟨u1.1, u2.1, u3.1, u4.1, u5.1, u6.1, u7.1⟩, u7.2)

/-- Lines 30-72: the per-day inner loop appending `n` transactions. -/
def transLoop (startYear : ℕ) (sinFn : ℕ → ℚ) (d : Date) :
    ℕ → List RawRecord × ℕ → List RawRecord × ℕ
  | 0, st => st
  | n + 1, st =>
    let rs := mkRecordRng startYear d sinFn st.2
    transLoop startYear sinFn d n (st.1 ++ [rs.1], rs.2)

/-- A record of the final dataframe, after the derived columns of
lines 76-83 have been added. -/
structure Record where
  date : Date
  region : String
  category : String
  subCategory : String
  salesperson : String
  revenue : ℚ
  unitsSold : ℤ
  targetRevenue : ℚ
  cogs : ℚ
  profit : ℚ
  previousYearRevenue : Option ℚ
  year : ℕ
  quarter : ℕ × ℕ
  month : ℕ
  revenueVsTargetPct : Option ℚ
  yoyGrowthPct : Option ℚ
  profitMarginPct : Option ℚ
deriving DecidableEq

/-- Calendar quarter of a month, as in `to_period(Q)`. -/
def quarterOf (m : ℕ) : ℕ := (m - 1) / 3 + 1

/-- Lines 74-84: the derived columns of one row.  In pandas a division by
zero yields an infinity or `NaN`; line 84 replaces infinities by `NaN`,
and a `NaN` (missing) entry is modelled as `none`. -/
def enrich (r : RawRecord) : Record :=
  { date := r.date, region := r.region, category := r.category,
    subCategory := r.subCategory, salesperson := r.salesperson,
    revenue := r.revenue, unitsSold := r.unitsSold,
    targetRevenue := r.targetRevenue, cogs := r.cogs, profit := r.profit,
    previousYearRevenue := r.previousYearRevenue,
    year := r.date.year,
    quarter := (r.date.year, quarterOf r.date.month),
    month := r.date.month,
    revenueVsTargetPct :=
      if r.targetRevenue = 0 then none else some ((r.revenue / r.targetRevenue - 1) * 100),
    yoyGrowthPct :=
      match r.previousYearRevenue with
      | none => none
      | some p => if p = 0 then none else some ((r.revenue / p - 1) * 100),
    profitMarginPct :=
      if r.revenue = 0 then none else some (r.profit / r.revenue * 100) }

/-- The exception surfaced when generation fails. -/
inductive GenError where
  | keyError (column : String)
deriving DecidableEq

/-- Lines 27-30: one day of the outer loop; `np.random.randint(5, 25)`
fixes the number of transactions of the day, then the inner loop appends
them. -/
def dayStep (startYear : ℕ) (sinFn : ℕ → ℚ) (st : List RawRecord × ℕ) (d : Date) :
    List RawRecord × ℕ :=
  transLoop startYear sinFn d (npRandint 5 25 st.2).1 (st.1, (npRandint 5 25 st.2).2)

/-- Lines 11-86: the full generator.  `np.random.seed(seed)` first replaces
the ambient global generator state.  When the date range is empty no row is
appended, `pd.DataFrame([])` has no columns, and the column access
`df[Date]` at line 75 raises `KeyError`; otherwise the derived columns are
added and the dataframe is returned. -/
def generate_enhanced_sales_data (sinFn : ℕ → ℚ) (globalState : ℕ)
    (startDate endDate : Date) (seed : ℕ) : Except GenError (List Record) :=
  let s0 := npRandomSeed globalState seed
  let raw := ((dateRange startDate endDate).foldl (dayStep startDate.year sinFn) ([], s0)).1
  if raw.isEmpty then Except.error (GenError.keyError "Date")
  else Except.ok (raw.map enrich)

/-- Ascending string sort, as Python `sorted` on the sidebar option lists. -/
def sortStrings (l : List String) : List String := l.mergeSort (fun a b => decide (a ≤ b))

/-- Line 130: `sorted(df_orig[Year].unique())`. -/
def allYearsOf (df : List Record) : List ℕ :=
  (df.map (·.year)).dedup.mergeSort (fun a b => decide (a ≤ b))

/-- Line 134 with every year selected: the quarters of the dataset. -/
def allQuartersOf (df : List Record) : List (ℕ × ℕ) :=
  (df.map (·.quarter)).dedup.mergeSort
    (fun a b => decide (a.1 < b.1 ∨ (a.1 = b.1 ∧ a.2 ≤ b.2)))

/-- Line 138: `sorted(df_orig[Region].unique())`. -/
def allRegionsOf (df : List Record) : List String := sortStrings (df.map (·.region)).dedup

/-- Line 142: `sorted(df_orig[Product Category].unique())`. -/
def allCategoriesOf (df : List Record) : List String := sortStrings (df.map (·.category)).dedup

/-- Line 150: `sorted(df_orig[Salesperson].unique())`. -/
def allSalespersonsOf (df : List Record) : List String :=
  sortStrings (df.map (·.salesperson)).dedup

/-- Line 146: the cascading sub-category option list, restricted to records
whose category is currently selected. -/
def sub_cat_options (df : List Record) (selectedCategories : List String) : List String :=
  sortStrings ((df.filter (fun r => decide (r.category ∈ selectedCategories))).map
    (·.subCategory)).dedup

/-- Lines 155-161: the `query_parts` list, one membership clause per
non-empty selection; an empty selection contributes no clause. -/
def queryParts (selYears : List ℕ) (selQuarters : List (ℕ × ℕ))
    (selRegions selCategories selSubCats selSalespersons : List String) :
    List (Record → Bool) :=
  (if selYears ≠ [] then [fun r => decide (r.year ∈ selYears)] else []) ++
  (if selQuarters ≠ [] then [fun r => decide (r.quarter ∈ selQuarters)] else []) ++
  (if selRegions ≠ [] then [fun r => decide (r.region ∈ selRegions)] else []) ++
  (if selCategories ≠ [] then [fun r => decide (r.category ∈ selCategories)] else []) ++
  (if selSubCats ≠ [] then [fun r => decide (r.subCategory ∈ selSubCats)] else []) ++
  (if selSalespersons ≠ [] then [fun r => decide (r.salesperson ∈ selSalespersons)] else [])

/-- Lines 163-166: the filtered dataframe; the conjunction of the query
clauses when any exist, the unfiltered dataframe otherwise. -/
def filterData (df : List Record) (selYears : List ℕ) (selQuarters : List (ℕ × ℕ))
    (selRegions selCategories selSubCats selSalespersons : List String) : List Record :=
  let parts := queryParts selYears selQuarters selRegions selCategories selSubCats selSalespersons
  if parts.isEmpty then df else df.filter (fun r => parts.all (fun p => p r))

/-- The sorted distinct values of a grouping column, the iteration order of
a pandas `groupby` result. -/
def groupKeys (df : List Record) (key : Record → String) : List String :=
  sortStrings (df.map key).dedup

/-- Sum of a numeric column over one group. -/
def sumBy (df : List Record) (key : Record → String) (k : String) (val : Record → ℚ) : ℚ :=
  ((df.filter (fun r => decide (key r = k))).map val).sum

/-- Sum of a nullable numeric column over one group; pandas `sum` skips
missing entries (and an all-missing group sums to 0). -/
def sumOptBy (df : List Record) (key : Record → String) (k : String)
    (val : Record → Option ℚ) : ℚ :=
  ((df.filter (fun r => decide (key r = k))).filterMap val).sum

/-- Lines 256-267: YoY growth by region from the two grouped sums; an
infinite or undefined ratio becomes `NaN` and the row is dropped, which
happens exactly when the summed previous-year revenue is zero. -/
def yoy_region_df (df : List Record) : List (String × ℚ) :=
  (groupKeys df (·.region)).filterMap (fun g =>
    let cur := sumBy df (·.region) g (·.revenue)
    let prev := sumOptBy df (·.region) g (·.previousYearRevenue)
    if prev = 0 then none else some (g, (cur / prev - 1) * 100))

/-- Modelled from the spec: the sum-then-divide rule for YoY growth by
region, groups with a zero or missing summed denominator dropped. -/
def yoyRegionSumDiv (df : List Record) : List (String × ℚ) :=
  (groupKeys df (·.region)).filterMap (fun g =>
    let num := sumBy df (·.region) g (·.revenue)
    let den := sumOptBy df (·.region) g (·.previousYearRevenue)
    if den = 0 then none else some (g, 100 * (num / den) - 100))

/-- Lines 279-285: revenue versus target by region from the two grouped
sums, rows with an undefined ratio dropped. -/
def region_target_perf (df : List Record) : List (String × ℚ) :=
  (groupKeys df (·.region)).filterMap (fun g =>
    let rev := sumBy df (·.region) g (·.revenue)
    let tgt := sumBy df (·.region) g (·.targetRevenue)
    if tgt = 0 then none else some (g, (rev / tgt - 1) * 100))

/-- Modelled from the spec: the sum-then-divide rule for revenue versus
target by region. -/
def targetRegionSumDiv (df : List Record) : List (String × ℚ) :=
  (groupKeys df (·.region)).filterMap (fun g =>
    let num := sumBy df (·.region) g (·.revenue)
    let den := sumBy df (·.region) g (·.targetRevenue)
    if den = 0 then none else some (g, 100 * (num / den) - 100))

/-- Line 186: the Avg. Profit Margin KPI, the pandas `mean` of the
per-record `Profit Margin (%)` column (missing entries skipped). -/
def avg_profit_margin (df : List Record) : ℚ :=
  if df.isEmpty then 0
  else (df.filterMap (·.profitMarginPct)).sum / ((df.filterMap (·.profitMarginPct)).length : ℚ)

/-- Modelled from the spec: the arithmetic mean of the per-record
percentage field. -/
def meanOfRatios (df : List Record) : ℚ :=
  if df.isEmpty then 0
  else (df.filterMap (·.profitMarginPct)).sum / ((df.filterMap (·.profitMarginPct)).length : ℚ)

/-- Modelled from the spec: the sum-then-divide profit margin, one hundred
times the summed profit over the summed revenue. -/
def marginSumDiv (df : List Record) : ℚ :=
  100 * ((df.map (·.profit)).sum / (df.map (·.revenue)).sum)

/-- The mean of the per-record margin field over one group. -/
def groupMarginMean (df : List Record) (g : String) : ℚ :=
  let margins := (df.filter (fun r => decide (r.subCategory = g))).filterMap (·.profitMarginPct)
  margins.sum / (margins.length : ℚ)

/-- Lines 326-330: the portfolio aggregation by sub-category: summed units,
mean of the per-record margin field, summed revenue; `dropna` removes the
groups whose margin mean is missing (no non-missing margin entry). -/
def portfolio_data (df : List Record) : List (String × ℚ × ℚ × ℚ) :=
  (groupKeys df (·.subCategory)).filterMap (fun g =>
    let grp := df.filter (fun r => decide (r.subCategory = g))
    let margins := grp.filterMap (·.profitMarginPct)
    if margins.isEmpty then none
    else some (g, ((grp.map (fun r => (r.unitsSold : ℚ))).sum,
      margins.sum / (margins.length : ℚ), (grp.map (·.revenue)).sum)))

/-- One aggregate row per distinct group-key value, in pandas groupby
(key-sorted) iteration order, with the summed metric. -/
def groupSumRows (df : List Record) (key : Record → String) (val : Record → ℚ) :
    List (String × ℚ) :=
  (groupKeys df key).map (fun k => (k, sumBy df key k val))

/-- The descending comparison on the metric value used by `nlargest`. -/
def descLe (a b : String × ℚ) : Bool := decide (b.2 ≤ a.2)

/-- `Series.nlargest(n)` with the default `keep=first`: a stable descending
sort by value truncated to `n` rows. -/
def nlargest (n : ℕ) (l : List (String × ℚ)) : List (String × ℚ) :=
  (l.mergeSort descLe).take n

/-- Line 315: the top sub-categories by summed revenue. -/
def subcat_revenue (df : List Record) (n : ℕ) : List (String × ℚ) :=
  nlargest n (groupSumRows df (·.subCategory) (·.revenue))

/-- Line 351: the top salespersons by summed revenue. -/
def sales_revenue (df : List Record) (n : ℕ) : List (String × ℚ) :=
  nlargest n (groupSumRows df (·.salesperson) (·.revenue))

/-- The per-record well-formedness facts carried through the generation
loops. -/
def RecordOK (startYear : ℕ) (r : RawRecord) : Prop :=
  0 < r.revenue ∧ 1 ≤ r.unitsSold ∧ 0 < r.targetRevenue ∧
    (r.date.year ≤ startYear → r.previousYearRevenue = none) ∧
    (startYear < r.date.year → ∃ v, r.previousYearRevenue = some v ∧ 0 < v)

/-- A concrete generated dataset: one day, seed 42, flat seasonal term. -/
def witnessGen : List Record :=
  (generate_enhanced_sales_data (fun _ => 0) 0 ⟨2022, 1, 1⟩ ⟨2022, 1, 1⟩ 42).toOption.getD []

/-- A concrete dataframe row used to instantiate the theorems. -/
def sampleRecord : Record :=
  { date := ⟨2022, 1, 5⟩, region := "North", category := "Electronics",
    subCategory := "Smartphones", salesperson := "Alice",
    revenue := 100, unitsSold := 2, targetRevenue := 80, cogs := 50, profit := 50,
    previousYearRevenue := none, year := 2022, quarter := (2022, 1), month := 1,
    revenueVsTargetPct := some 25, yoyGrowthPct := none, profitMarginPct := some 50 }

/-- A second concrete row, with a larger revenue and a lower margin. -/
def sampleRecord2 : Record :=
  { date := ⟨2022, 2, 7⟩, region := "South", category := "Apparel",
    subCategory := "Footwear", salesperson := "Bob",
    revenue := 300, unitsSold := 5, targetRevenue := 300, cogs := 180, profit := 120,
    previousYearRevenue := none, year := 2022, quarter := (2022, 1), month := 2,
    revenueVsTargetPct := some 0, yoyGrowthPct := none, profitMarginPct := some 40 }

/-- Claim C4: for every seed, start date and end date, two calls of the generator
with identical inputs produce identical output record for record; the
incoming global pseudorandom state is discarded by `np.random.seed(seed)`
at line 12, so the result is a function of the inputs alone. -/
theorem generate_deterministic (sinFn : ℕ → ℚ) (g1 g2 : ℕ) (s e : Date) (seed : ℕ) :
    generate_enhanced_sales_data sinFn g1 s e seed =
      generate_enhanced_sales_data sinFn g2 s e seed := rfl

/-- Claim C3: for every configuration whose end date is strictly before its start
date, generation fails during that invocation (the empty dataframe has no
Date column, so line 75 raises `KeyError`) instead of returning a record
set. -/
theorem generate_inverted_range_error (sinFn : ℕ → ℚ) (g : ℕ) (s e : Date) (seed : ℕ)
    (h : toRd e < toRd s) :
    generate_enhanced_sales_data sinFn g s e seed =
      Except.error (GenError.keyError "Date") := by
  simp [generate_enhanced_sales_data, dateRange, if_pos h]

/-- The C3 theorem applied at a concrete inverted date range. -/
theorem generate_inverted_range_error_witness :
    generate_enhanced_sales_data (fun _ => 0) 0 ⟨2023, 1, 1⟩ ⟨2022, 12, 31⟩ 42 =
      Except.error (GenError.keyError "Date") :=
  generate_inverted_range_error (fun _ => 0) 0 ⟨2023, 1, 1⟩ ⟨2022, 12, 31⟩ 42 (by decide)

/-- Counterexample to claim C1: a filter specification whose year selection is empty
while every other selection matches the single record; the code skips the
clause of an empty selection, so the result is the whole dataset, not the
empty result the claim requires. -/
theorem empty_selection_counterexample :
    filterData [sampleRecord] [] [(2022, 1)] ["North"] ["Electronics"]
      ["Smartphones"] ["Alice"] ≠ [] := by decide

/-- The query-part list is empty exactly when every selection is empty. -/
lemma queryParts_eq_nil_iff (ys : List ℕ) (qs : List (ℕ × ℕ)) (rs cs ss ps : List String) :
    queryParts ys qs rs cs ss ps = [] ↔
      ys = [] ∧ qs = [] ∧ rs = [] ∧ cs = [] ∧ ss = [] ∧ ps = [] := by
  unfold queryParts
  by_cases hy : ys = [] <;> by_cases hq : qs = [] <;> by_cases hr : rs = [] <;>
    by_cases hc : cs = [] <;> by_cases hs : ss = [] <;> by_cases hp : ps = [] <;>
    simp [hy, hq, hr, hc, hs, hp]

/-- A record passes every query clause exactly when, for each dimension,
the selection is empty or contains the value of the record. -/
lemma all_queryParts (ys : List ℕ) (qs : List (ℕ × ℕ)) (rs cs ss ps : List String)
    (r : Record) :
    (queryParts ys qs rs cs ss ps).all (fun p => p r) = true ↔
      (ys = [] ∨ r.year ∈ ys) ∧ (qs = [] ∨ r.quarter ∈ qs) ∧
        (rs = [] ∨ r.region ∈ rs) ∧ (cs = [] ∨ r.category ∈ cs) ∧
        (ss = [] ∨ r.subCategory ∈ ss) ∧ (ps = [] ∨ r.salesperson ∈ ps) := by
  unfold queryParts
  by_cases hy : ys = [] <;> by_cases hq : qs = [] <;> by_cases hr : rs = [] <;>
    by_cases hc : cs = [] <;> by_cases hs : ss = [] <;> by_cases hp : ps = [] <;>
    simp [hy, hq, hr, hc, hs, hp]

/-- Membership in the filtered dataframe, for any selections. -/
lemma mem_filterData (df : List Record) (ys : List ℕ) (qs : List (ℕ × ℕ))
    (rs cs ss ps : List String) (r : Record) :
    r ∈ filterData df ys qs rs cs ss ps ↔
      r ∈ df ∧ (ys = [] ∨ r.year ∈ ys) ∧ (qs = [] ∨ r.quarter ∈ qs) ∧
        (rs = [] ∨ r.region ∈ rs) ∧ (cs = [] ∨ r.category ∈ cs) ∧
        (ss = [] ∨ r.subCategory ∈ ss) ∧ (ps = [] ∨ r.salesperson ∈ ps) := by
  unfold filterData
  by_cases h : (queryParts ys qs rs cs ss ps).isEmpty
  · rw [if_pos h]
    obtain ⟨h1, h2, h3, h4, h5, h6⟩ :=
      (queryParts_eq_nil_iff ys qs rs cs ss ps).mp (List.isEmpty_iff.mp h)
    simp [h1, h2, h3, h4, h5, h6]
  · rw [if_neg h, List.mem_filter, all_queryParts]

/-- Claim C1 amended: an empty selection for a dimension contributes no query
clause, so it leaves that dimension unconstrained instead of excluding
everything: a record is in the filter output exactly when it is in the
dataset and each dimension selection is empty or contains its value. -/
theorem empty_selection_unconstrained (df : List Record) (ys : List ℕ)
    (qs : List (ℕ × ℕ)) (rs cs ss ps : List String) (r : Record) :
    r ∈ filterData df ys qs rs cs ss ps ↔
      r ∈ df ∧ (ys = [] ∨ r.year ∈ ys) ∧ (qs = [] ∨ r.quarter ∈ qs) ∧
        (rs = [] ∨ r.region ∈ rs) ∧ (cs = [] ∨ r.category ∈ cs) ∧
        (ss = [] ∨ r.subCategory ∈ ss) ∧ (ps = [] ∨ r.salesperson ∈ ps) :=
  mem_filterData df ys qs rs cs ss ps r

/-- Claim C8: filtering with every selection equal to the full value domain of
its dimension (the option lists the sidebar offers by default) returns the
dataset unchanged. -/
theorem filter_full_domain_identity (df : List Record) :
    filterData df (allYearsOf df) (allQuartersOf df) (allRegionsOf df)
      (allCategoriesOf df) (sub_cat_options df (allCategoriesOf df))
      (allSalespersonsOf df) = df := by
  unfold filterData
  by_cases h : (queryParts (allYearsOf df) (allQuartersOf df) (allRegionsOf df)
      (allCategoriesOf df) (sub_cat_options df (allCategoriesOf df))
      (allSalespersonsOf df)).isEmpty
  · rw [if_pos h]
  · rw [if_neg h]
    refine List.filter_eq_self.mpr fun r hr => ?_
    rw [all_queryParts]
    refine ⟨Or.inr ?_, Or.inr ?_, Or.inr ?_, Or.inr ?_, Or.inr ?_, Or.inr ?_⟩
    · have : r.year ∈ (df.map (·.year)).dedup :=
        List.mem_dedup.mpr (List.mem_map_of_mem _ hr)
      simpa [allYearsOf] using this
    · have : r.quarter ∈ (df.map (·.quarter)).dedup :=
        List.mem_dedup.mpr (List.mem_map_of_mem _ hr)
      simpa [allQuartersOf] using this
    · have : r.region ∈ (df.map (·.region)).dedup :=
        List.mem_dedup.mpr (List.mem_map_of_mem _ hr)
      simpa [allRegionsOf, sortStrings] using this
    · have : r.category ∈ (df.map (·.category)).dedup :=
        List.mem_dedup.mpr (List.mem_map_of_mem _ hr)
      simpa [allCategoriesOf, sortStrings] using this
    · have hc : r.category ∈ allCategoriesOf df := by
        have : r.category ∈ (df.map (·.category)).dedup :=
          List.mem_dedup.mpr (List.mem_map_of_mem _ hr)
        simpa [allCategoriesOf, sortStrings] using this
      have hf : r ∈ df.filter (fun x => decide (x.category ∈ allCategoriesOf df)) :=
        List.mem_filter.mpr ⟨hr, by simpa using hc⟩
      have : r.subCategory ∈
          ((df.filter (fun x => decide (x.category ∈ allCategoriesOf df))).map
            (·.subCategory)).dedup :=
        List.mem_dedup.mpr (List.mem_map_of_mem _ hf)
      simpa [sub_cat_options, sortStrings] using this
    · have : r.salesperson ∈ (df.map (·.salesperson)).dedup :=
        List.mem_dedup.mpr (List.mem_map_of_mem _ hr)
      simpa [allSalespersonsOf, sortStrings] using this

/-- Claim C7: when every record of the dataset draws its sub-category from the
sub-categories of its own category (as the generator does at line 33),
every option offered by the cascading sub-category filter maps back to one
of the selected categories. -/
theorem sub_cat_options_cascading (df : List Record) (cats : List String)
    (hdf : ∀ r ∈ df, r.subCategory ∈ subCategoriesOf r.category) :
    ∀ s ∈ sub_cat_options df cats, ∃ c ∈ cats, s ∈ subCategoriesOf c := by
  intro s hs
  simp only [sub_cat_options, sortStrings, List.mem_mergeSort, List.mem_dedup,
    List.mem_map, List.mem_filter, decide_eq_true_eq] at hs
  obtain ⟨r, ⟨hrdf, hrc⟩, rfl⟩ := hs
  exact ⟨r.category, hrc, hdf r hrdf⟩

/-- The C7 theorem applied to a concrete one-record dataset. -/
theorem sub_cat_options_cascading_witness :
    (∀ r ∈ [sampleRecord], r.subCategory ∈ subCategoriesOf r.category) ∧
      ∀ s ∈ sub_cat_options [sampleRecord] ["Electronics"],
        ∃ c ∈ ["Electronics"], s ∈ subCategoriesOf c :=
  ⟨by decide, sub_cat_options_cascading [sampleRecord] ["Electronics"] (by decide)⟩

/-- Counterexample to claim C2: on a two-record dataset with unequal revenues the
reported Avg. Profit Margin KPI is the arithmetic mean of the per-record
percentages (45), which differs from the sum-then-divide value (42.5); the
claim that every ratio aggregate is sum-then-divide and never the mean of
the per-record field is therefore false for the profit-margin aggregates. -/
theorem profit_margin_counterexample :
    avg_profit_margin [sampleRecord, sampleRecord2] = 45 ∧
      marginSumDiv [sampleRecord, sampleRecord2] = 85/2 ∧
      avg_profit_margin [sampleRecord, sampleRecord2] ≠
        marginSumDiv [sampleRecord, sampleRecord2] := by
  have hfm : List.filterMap (fun x => x.profitMarginPct) [sampleRecord, sampleRecord2] =
      [50, 40] := rfl
  have h1 : avg_profit_margin [sampleRecord, sampleRecord2] = 45 := by
    unfold avg_profit_margin
    rw [if_neg (by simp), hfm]
    norm_num
  have h2 : marginSumDiv [sampleRecord, sampleRecord2] = 85/2 := by
    have hp : List.map (fun x => x.profit) [sampleRecord, sampleRecord2] =
        [(50 : ℚ), 120] := rfl
    have hv : List.map (fun x => x.revenue) [sampleRecord, sampleRecord2] =
        [(100 : ℚ), 300] := rfl
    unfold marginSumDiv
    rw [hp, hv]
    norm_num
  exact ⟨h1, h2, by rw [h1, h2]; norm_num⟩

/-- Claim C2 amended: the YoY-growth and revenue-versus-target aggregates are
computed from grouped sums of numerator and denominator (groups with a
zero or missing summed denominator dropped), while the profit-margin
aggregates (the KPI at line 186 and the portfolio column at line 328)
are the arithmetic mean of the per-record percentage field. -/
theorem ratio_aggregates_amended :
    (∀ df : List Record, yoy_region_df df = yoyRegionSumDiv df) ∧
      (∀ df : List Record, region_target_perf df = targetRegionSumDiv df) ∧
      (∀ df : List Record, avg_profit_margin df = meanOfRatios df) ∧
      (∀ (df : List Record) (g : String) (u m rev : ℚ),
        (g, (u, m, rev)) ∈ portfolio_data df → m = groupMarginMean df g) := by
  refine ⟨fun df => ?_, fun df => ?_, fun df => rfl, fun df g u m rev hmem => ?_⟩
  · unfold yoy_region_df yoyRegionSumDiv
    refine List.filterMap_congr fun k hk => ?_
    dsimp only
    split
    · rfl
    · rw [show ∀ a b : ℚ, (a / b - 1) * 100 = 100 * (a / b) - 100 from fun a b => by ring]
  · unfold region_target_perf targetRegionSumDiv
    refine List.filterMap_congr fun k hk => ?_
    dsimp only
    split
    · rfl
    · rw [show ∀ a b : ℚ, (a / b - 1) * 100 = 100 * (a / b) - 100 from fun a b => by ring]
  · unfold portfolio_data at hmem
    obtain ⟨g0, hg0, heq⟩ := List.mem_filterMap.mp hmem
    dsimp only at heq
    split at heq
    · exact absurd heq (by simp)
    · simp only [Option.some.injEq, Prod.mk.injEq] at heq
      obtain ⟨rfl, -, hm, -⟩ := heq
      exact hm.symm

/-- The C2 amended theorem applied to a concrete one-record dataset, whose
portfolio margin row is the mean of the per-record margin field. -/
theorem ratio_aggregates_amended_witness :
    (50 : ℚ) = groupMarginMean [sampleRecord] "Smartphones" :=
  ratio_aggregates_amended.2.2.2 [sampleRecord] "Smartphones" 2 50 100 (by
    simp [portfolio_data, groupKeys, sortStrings, sampleRecord])

/-- The descending comparison is transitive. -/
lemma descLe_trans : ∀ a b c : String × ℚ, descLe a b → descLe b c → descLe a c := by
  intro a b c hab hbc
  simp only [descLe, decide_eq_true_eq] at *
  exact le_trans hbc hab

/-- The descending comparison is total. -/
lemma descLe_total : ∀ a b : String × ℚ, descLe a b || descLe b a := by
  intro a b
  simp only [descLe, Bool.or_eq_true, decide_eq_true_eq]
  exact le_total b.2 a.2

/-- Stability of the descending sort: the rows carrying one fixed metric
value appear in the sorted list exactly as they appear in the input. -/
lemma filter_value_mergeSort (l : List (String × ℚ)) (q : ℚ) :
    (l.mergeSort descLe).filter (fun x => decide (x.2 = q)) =
      l.filter (fun x => decide (x.2 = q)) := by
  have hsub : List.Sublist (l.filter (fun x => decide (x.2 = q))) (l.mergeSort descLe) := by
    apply List.sublist_mergeSort descLe_trans descLe_total ?_ (List.filter_sublist l)
    apply List.pairwise_of_forall_mem_list
    intro a ha b hb
    have ha2 : a.2 = q := by simpa using List.of_mem_filter ha
    have hb2 : b.2 = q := by simpa using List.of_mem_filter hb
    simp [descLe, ha2, hb2]
  have hperm : List.Perm ((l.mergeSort descLe).filter (fun x => decide (x.2 = q)))
      (l.filter (fun x => decide (x.2 = q))) :=
    (List.mergeSort_perm l descLe).filter _
  have heq : (l.filter (fun x => decide (x.2 = q))).filter (fun x => decide (x.2 = q)) =
      l.filter (fun x => decide (x.2 = q)) :=
    List.filter_eq_self.mpr fun a ha => (List.mem_filter.mp ha).2
  have h2 : List.Sublist (l.filter (fun x => decide (x.2 = q)))
      ((l.mergeSort descLe).filter (fun x => decide (x.2 = q))) := by
    have := hsub.filter (fun x => decide (x.2 = q))
    rwa [heq] at this
  exact (h2.eq_of_length hperm.length_eq.symm).symm

/-- The filtered part of a front segment is a front segment of the
filtered list. -/
lemma filter_take_front {α : Type} (p : α → Bool) (n : ℕ) (xs : List α) :
    ∃ t, (xs.take n).filter p ++ t = xs.filter p :=
  ⟨(xs.drop n).filter p, by rw [← List.filter_append, List.take_append_drop]⟩

/-- One aggregate row per distinct group key. -/
lemma groupSumRows_length (df : List Record) (key : Record → String) (val : Record → ℚ) :
    (groupSumRows df key val).length = (df.map key).dedup.length := by
  simp [groupSumRows, groupKeys, sortStrings]

/-- Claim C9: top-N aggregation over grouped sums returns exactly
`min n distinctGroupCount` rows, sorted descending by the metric, and rows
with equal metric values keep the relative order the grouped result
iterates them in (its key-sorted order): for each metric value the
selected rows form a front segment of the grouped rows carrying it. -/
theorem topN_rows (df : List Record) (key : Record → String) (val : Record → ℚ) (n : ℕ) :
    (nlargest n (groupSumRows df key val)).length = min n (df.map key).dedup.length ∧
      (nlargest n (groupSumRows df key val)).Pairwise (fun a b => b.2 ≤ a.2) ∧
      ∀ q : ℚ, ∃ t,
        (nlargest n (groupSumRows df key val)).filter (fun x => decide (x.2 = q)) ++ t =
          (groupSumRows df key val).filter (fun x => decide (x.2 = q)) := by
  refine ⟨?_, ?_, fun q => ?_⟩
  · simp [nlargest, groupSumRows_length]
  · have hs := List.sorted_mergeSort descLe_trans descLe_total (groupSumRows df key val)
    have hp : ((groupSumRows df key val).mergeSort descLe).Pairwise
        (fun a b : String × ℚ => b.2 ≤ a.2) :=
      hs.imp (fun h => by simpa [descLe] using h)
    exact List.Pairwise.sublist (List.take_sublist n _) hp
  · obtain ⟨t, ht⟩ :=
      filter_take_front (fun x : String × ℚ => decide (x.2 = q)) n
        ((groupSumRows df key val).mergeSort descLe)
    rw [filter_value_mergeSort] at ht
    exact ⟨t, ht⟩

/-- The stand-in generator state stays below the modulus. -/
lemma lcg_lt (s : ℕ) : lcg s < 65537 := Nat.mod_lt _ (by norm_num)

/-- The pseudorandom fraction is nonnegative. -/
lemma nextFrac_nonneg (s : ℕ) : 0 ≤ (nextFrac s).1 := by
  unfold nextFrac
  positivity

/-- The pseudorandom fraction is below one. -/
lemma nextFrac_lt_one (s : ℕ) : (nextFrac s).1 < 1 := by
  unfold nextFrac
  rw [div_lt_one (by norm_num)]
  exact_mod_cast lcg_lt s

/-- A uniform draw lands in its half-open interval. -/
lemma npUniform_mem (lo hi : ℚ) (h : lo < hi) (s : ℕ) :
    lo ≤ (npUniform lo hi s).1 ∧ (npUniform lo hi s).1 < hi := by
  unfold npUniform
  dsimp only
  constructor
  · nlinarith [nextFrac_nonneg s]
  · nlinarith [nextFrac_lt_one s, nextFrac_nonneg s]

/-- Every region multiplier is positive. -/
lemma regionFactor_pos (r : String) : 0 < regionFactor r := by
  unfold regionFactor
  split_ifs <;> norm_num

/-- Every category multiplier is positive. -/
lemma catFactor_pos (c : String) : 0 < catFactor c := by
  unfold catFactor
  split_ifs <;> norm_num

/-- Master bounds for one record built from in-range draws. -/
lemma mkRecordFromDraws_ok (startYear : ℕ) (d : Date) (sinVal : ℚ)
    (region category subCategory salesperson : String) (dr : Draws)
    (hsin : |sinVal| ≤ 1) (hyear : startYear ≤ d.year) (hdr : dr.InRange) :
    RecordOK startYear
      (mkRecordFromDraws startYear d sinVal region category subCategory salesperson dr) := by
  obtain ⟨hb1, hb2, hs1, hs2, hn1, hn2, hp1, hp2, ht1, ht2, hc1, hc2, hv1, hv2⟩ := hdr
  obtain ⟨hsl, hsu⟩ := abs_le.mp hsin
  have hyq : (startYear : ℚ) ≤ (d.year : ℚ) := by exact_mod_cast hyear
  have hseas : (0 : ℚ) < 1 + sinVal * (15/100) := by nlinarith
  have hyf : (1 : ℚ) ≤ 1 + ((d.year : ℚ) - (startYear : ℚ)) * (8/100) := by nlinarith
  have hrev : 0 < (mkRecordFromDraws startYear d sinVal region category subCategory
      salesperson dr).revenue := by
    unfold mkRecordFromDraws
    dsimp only
    refine mul_pos (mul_pos (mul_pos (mul_pos (mul_pos (mul_pos ?_ ?_) ?_) ?_) ?_) ?_) ?_
    · linarith
    · exact hseas
    · linarith
    · exact regionFactor_pos region
    · exact catFactor_pos category
    · linarith
    · linarith
  refine ⟨hrev, ?_, ?_, ?_, ?_⟩
  · unfold mkRecordFromDraws
    dsimp only
    exact le_max_left 1 _
  · have ht : (0 : ℚ) < dr.targetF := by linarith
    unfold mkRecordFromDraws at hrev ⊢
    dsimp only at hrev ⊢
    exact mul_pos hrev ht
  · intro hle
    have hle2 : d.year ≤ startYear := hle
    unfold mkRecordFromDraws
    dsimp only
    rw [if_neg (by omega)]
  · intro hlt
    have hlt2 : startYear < d.year := hlt
    unfold mkRecordFromDraws at hrev ⊢
    dsimp only at hrev ⊢
    rw [if_pos hlt2]
    refine ⟨_, rfl, ?_⟩
    have hvpos : (0 : ℚ) < dr.prevYear := by linarith
    have hyfpos : (0 : ℚ) < 1 + ((d.year : ℚ) - (startYear : ℚ)) * (8/100) := by linarith
    exact div_pos hrev (mul_pos hyfpos hvpos)

/-- The pseudorandom record builder produces a well-formed record: each of
its uniform draws provably lies in the documented range. -/
lemma mkRecordRng_ok (startYear : ℕ) (d : Date) (sinFn : ℕ → ℚ) (s0 : ℕ)
    (hsin : ∀ m, |sinFn m| ≤ 1) (hyear : startYear ≤ d.year) :
    RecordOK startYear (mkRecordRng startYear d sinFn s0).1 := by
  unfold mkRecordRng
  dsimp only
  apply mkRecordFromDraws_ok _ _ _ _ _ _ _ _ (hsin d.month) hyear
  refine ⟨?_, ?_, ?_, ?_, ?_, ?_, ?_, ?_, ?_, ?_, ?_, ?_, ?_, ?_⟩
  · exact (npUniform_mem _ _ (by norm_num) _).1
  · exact (npUniform_mem _ _ (by norm_num) _).2
  · exact (npUniform_mem _ _ (by norm_num) _).1
  · exact (npUniform_mem _ _ (by norm_num) _).2
  · exact (npUniform_mem _ _ (by norm_num) _).1
  · exact (npUniform_mem _ _ (by norm_num) _).2
  · exact (npUniform_mem _ _ (by norm_num) _).1
  · exact (npUniform_mem _ _ (by norm_num) _).2
  · exact (npUniform_mem _ _ (by norm_num) _).1
  · exact (npUniform_mem _ _ (by norm_num) _).2
  · exact (npUniform_mem _ _ (by norm_num) _).1
  · exact (npUniform_mem _ _ (by norm_num) _).2
  · split
    · exact (npUniform_mem _ _ (by norm_num) _).1
    · norm_num
  · split
    · exact (npUniform_mem _ _ (by norm_num) _).2
    · norm_num

/-- The inner transaction loop preserves record well-formedness. -/
lemma transLoop_ok (startYear : ℕ) (sinFn : ℕ → ℚ) (d : Date)
    (hsin : ∀ m, |sinFn m| ≤ 1) (hyear : startYear ≤ d.year) :
    ∀ (n : ℕ) (st : List RawRecord × ℕ),
      (∀ r ∈ st.1, RecordOK startYear r) →
      ∀ r ∈ (transLoop startYear sinFn d n st).1, RecordOK startYear r := by
  intro n
  induction n with
  | zero => intro st hst; simpa [transLoop] using hst
  | succ n ih =>
    intro st hst r hr
    simp only [transLoop] at hr
    refine ih _ ?_ r hr
    intro x hx
    rcases List.mem_append.mp hx with h | h
    · exact hst x h
    · rw [List.mem_singleton] at h
      subst h
      exact mkRecordRng_ok startYear d sinFn st.2 hsin hyear

/-- The outer daily loop preserves record well-formedness. -/
lemma foldl_dayStep_ok (startYear : ℕ) (sinFn : ℕ → ℚ) (hsin : ∀ m, |sinFn m| ≤ 1) :
    ∀ (dates : List Date), (∀ d ∈ dates, startYear ≤ d.year) →
      ∀ (st : List RawRecord × ℕ), (∀ r ∈ st.1, RecordOK startYear r) →
      ∀ r ∈ (dates.foldl (dayStep startYear sinFn) st).1, RecordOK startYear r := by
  intro dates
  induction dates with
  | nil => intro _ st hst; simpa using hst
  | cons d ds ih =>
    intro hds st hst
    rw [List.foldl_cons]
    refine ih (fun x hx => hds x (List.mem_cons_of_mem _ hx)) _ ?_
    intro r hr
    unfold dayStep at hr
    exact transLoop_ok startYear sinFn d hsin (hds d (List.mem_cons_self d ds))
      (npRandint 5 25 st.2).1 (st.1, (npRandint 5 25 st.2).2) hst r hr

/-- Advancing one day never decreases the year. -/
lemma nextDay_year_le (d : Date) : d.year ≤ (nextDay d).year := by
  unfold nextDay
  split_ifs <;> simp

/-- Every date reached from `d` lies in year `d.year` or later. -/
lemma dateListFrom_year (d : Date) : ∀ (n : ℕ), ∀ x ∈ dateListFrom d n, d.year ≤ x.year := by
  intro n
  induction n generalizing d with
  | zero => intro x hx; simp [dateListFrom] at hx
  | succ n ih =>
    intro x hx
    rw [dateListFrom] at hx
    rcases List.mem_cons.mp hx with h | h
    · subst h; exact le_refl _
    · exact le_trans (nextDay_year_le d) (ih (nextDay d) x h)

/-- Every date of the generated range lies in the start year or later. -/
lemma dateRange_year (s e : Date) : ∀ d ∈ dateRange s e, s.year ≤ d.year := by
  intro d hd
  unfold dateRange at hd
  split at hd
  · simp at hd
  · exact dateListFrom_year s _ d hd

/-- Every record of a successful generation satisfies the well-formedness
facts: positive revenue and target, at least one unit, and the
previous-year rule. -/
lemma generate_ok_master (sinFn : ℕ → ℚ) (hsin : ∀ m, |sinFn m| ≤ 1) (g : ℕ)
    (s e : Date) (seed : ℕ) :
    ∀ r ∈ (generate_enhanced_sales_data sinFn g s e seed).toOption.getD [],
      0 < r.revenue ∧ 1 ≤ r.unitsSold ∧ 0 < r.targetRevenue ∧
        (r.date.year ≤ s.year → r.previousYearRevenue = none) ∧
        (s.year < r.date.year → ∃ v, r.previousYearRevenue = some v ∧ 0 < v) := by
  intro r hr
  unfold generate_enhanced_sales_data at hr
  dsimp only at hr
  split at hr
  · simp [Except.toOption] at hr
  · simp only [Except.toOption, Option.getD_some] at hr
    obtain ⟨r0, hr0, rfl⟩ := List.mem_map.mp hr
    have h0 := foldl_dayStep_ok s.year sinFn hsin (dateRange s e) (dateRange_year s e)
      ([], npRandomSeed g seed) (by simp) r0 hr0
    obtain ⟨h1, h2, h3, h4, h5⟩ := h0
    exact ⟨h1, h2, h3, h4, h5⟩

/-- Claim C5: every record produced by the generator has at least one unit sold,
positive revenue, and a positive revenue target. -/
theorem generated_records_positive (sinFn : ℕ → ℚ) (hsin : ∀ m, |sinFn m| ≤ 1)
    (g : ℕ) (s e : Date) (seed : ℕ) :
    ∀ r ∈ (generate_enhanced_sales_data sinFn g s e seed).toOption.getD [],
      1 ≤ r.unitsSold ∧ 0 < r.revenue ∧ 0 < r.targetRevenue := by
  intro r hr
  obtain ⟨h1, h2, h3, -, -⟩ := generate_ok_master sinFn hsin g s e seed r hr
  exact ⟨h2, h1, h3⟩

/-- The concrete generated dataset is nonempty (nine transactions on its
single day); the record fields are never inspected, only the list shape. -/
lemma witnessGen_ne_nil : witnessGen ≠ [] := by decide

/-- The C5 theorem applied at a concrete seed and one-day range, to the
first generated record. -/
theorem generated_records_positive_witness :
    1 ≤ (witnessGen.head witnessGen_ne_nil).unitsSold ∧
      0 < (witnessGen.head witnessGen_ne_nil).revenue ∧
      0 < (witnessGen.head witnessGen_ne_nil).targetRevenue :=
  generated_records_positive (fun _ => 0) (fun m => by norm_num) 0 ⟨2022, 1, 1⟩
    ⟨2022, 1, 1⟩ 42 (witnessGen.head witnessGen_ne_nil) (List.head_mem witnessGen_ne_nil)

/-- Claim C6: a generated record dated in the first simulated year carries the
missing-value marker as previous-year revenue; a record of any later year
carries a defined, strictly positive previous-year revenue. -/
theorem generated_prev_year_revenue (sinFn : ℕ → ℚ) (hsin : ∀ m, |sinFn m| ≤ 1)
    (g : ℕ) (s e : Date) (seed : ℕ) :
    ∀ r ∈ (generate_enhanced_sales_data sinFn g s e seed).toOption.getD [],
      (r.date.year = s.year → r.previousYearRevenue = none) ∧
        (s.year < r.date.year → ∃ v, r.previousYearRevenue = some v ∧ 0 < v) := by
  intro r hr
  obtain ⟨-, -, -, h4, h5⟩ := generate_ok_master sinFn hsin g s e seed r hr
  exact ⟨fun he => h4 (le_of_eq he), h5⟩

/-- The C6 theorem applied at a concrete seed and one-day range: the first
generated record is dated in the first simulated year, so its previous-year
revenue is the missing marker. -/
theorem generated_prev_year_revenue_witness :
    (witnessGen.head witnessGen_ne_nil).previousYearRevenue = none :=
  (generated_prev_year_revenue (fun _ => 0) (fun m => by norm_num) 0 ⟨2022, 1, 1⟩
    ⟨2022, 1, 1⟩ 42 (witnessGen.head witnessGen_ne_nil)
    (List.head_mem witnessGen_ne_nil)).1 (by decide)

/-- Counterexample to claim C10: `np.random.uniform(0.4, 0.7)` draws from the half
open interval that contains its lower bound 0.4, and at that draw the
derived profit margin is exactly 60, not strictly below 60. -/
theorem profit_margin_boundary_counterexample :
    Draws.InRange ⟨20, 1, 1, 10, 1, 2/5, 1⟩ ∧
      (enrich (mkRecordFromDraws 2022 ⟨2022, 1, 1⟩ 0 "North" "Electronics" "Smartphones"
        "Alice" ⟨20, 1, 1, 10, 1, 2/5, 1⟩)).profitMarginPct = some 60 := by
  constructor
  · exact ⟨by norm_num, by norm_num, by norm_num, by norm_num, by norm_num, by norm_num,
      by norm_num, by norm_num, by norm_num, by norm_num, by norm_num, by norm_num,
      by norm_num, by norm_num⟩
  · unfold mkRecordFromDraws enrich regionFactor catFactor
    simp only [String.reduceEq, reduceIte]
    norm_num

/-- Claim C10 amended: every record built from draws in the documented numpy
ranges has a positive cost strictly below its revenue, hence positive
profit, and a derived profit margin strictly above 30 and at most 60
(the margin reaches 60 exactly when the cost-share draw returns its
inclusive lower bound 0.4). -/
theorem profit_margin_bounds (startYear : ℕ) (d : Date) (sinVal : ℚ)
    (region category subCategory salesperson : String) (dr : Draws)
    (hsin : |sinVal| ≤ 1) (hyear : startYear ≤ d.year) (hdr : dr.InRange) :
    0 < (mkRecordFromDraws startYear d sinVal region category subCategory
        salesperson dr).cogs ∧
      (mkRecordFromDraws startYear d sinVal region category subCategory
        salesperson dr).cogs <
        (mkRecordFromDraws startYear d sinVal region category subCategory
          salesperson dr).revenue ∧
      0 < (mkRecordFromDraws startYear d sinVal region category subCategory
        salesperson dr).profit ∧
      ∃ m, (enrich (mkRecordFromDraws startYear d sinVal region category subCategory
        salesperson dr)).profitMarginPct = some m ∧ 30 < m ∧ m ≤ 60 := by
  have hrev : 0 < (mkRecordFromDraws startYear d sinVal region category subCategory
      salesperson dr).revenue :=
    (mkRecordFromDraws_ok startYear d sinVal region category subCategory salesperson dr
      hsin hyear hdr).1
  obtain ⟨hb1, hb2, hs1, hs2, hn1, hn2, hp1, hp2, ht1, ht2, hc1, hc2, hv1, hv2⟩ := hdr
  have hcogs : (mkRecordFromDraws startYear d sinVal region category subCategory
      salesperson dr).cogs =
      (mkRecordFromDraws startYear d sinVal region category subCategory
        salesperson dr).revenue * dr.cogsShare := rfl
  have hprof : (mkRecordFromDraws startYear d sinVal region category subCategory
      salesperson dr).profit =
      (mkRecordFromDraws startYear d sinVal region category subCategory
        salesperson dr).revenue -
        (mkRecordFromDraws startYear d sinVal region category subCategory
          salesperson dr).cogs := rfl
  have hc0 : (0 : ℚ) < dr.cogsShare := by linarith
  have hcl : dr.cogsShare < 1 := by linarith
  have hne : (mkRecordFromDraws startYear d sinVal region category subCategory
      salesperson dr).revenue ≠ 0 := ne_of_gt hrev
  have hm : (mkRecordFromDraws startYear d sinVal region category subCategory
      salesperson dr).profit /
        (mkRecordFromDraws startYear d sinVal region category subCategory
          salesperson dr).revenue * 100 = (1 - dr.cogsShare) * 100 := by
    rw [hprof, hcogs]
    field_simp
    ring
  refine ⟨?_, ?_, ?_, ?_⟩
  · rw [hcogs]
    exact mul_pos hrev hc0
  · rw [hcogs]
    nlinarith
  · rw [hprof, hcogs]
    nlinarith
  · refine ⟨(mkRecordFromDraws startYear d sinVal region category subCategory
      salesperson dr).profit /
        (mkRecordFromDraws startYear d sinVal region category subCategory
          salesperson dr).revenue * 100, ?_, ?_, ?_⟩
    · unfold enrich
      dsimp only
      rw [if_neg hne]
    · rw [hm]
      linarith
    · rw [hm]
      linarith

/-- The C10 amended theorem applied at concrete in-range draws. -/
theorem profit_margin_bounds_witness :
    0 < (mkRecordFromDraws 2022 ⟨2022, 1, 1⟩ 0 "North" "Electronics" "Smartphones"
        "Alice" ⟨20, 1, 1, 10, 1, 1/2, 1⟩).cogs ∧
      (mkRecordFromDraws 2022 ⟨2022, 1, 1⟩ 0 "North" "Electronics" "Smartphones"
        "Alice" ⟨20, 1, 1, 10, 1, 1/2, 1⟩).cogs <
        (mkRecordFromDraws 2022 ⟨2022, 1, 1⟩ 0 "North" "Electronics" "Smartphones"
          "Alice" ⟨20, 1, 1, 10, 1, 1/2, 1⟩).revenue ∧
      0 < (mkRecordFromDraws 2022 ⟨2022, 1, 1⟩ 0 "North" "Electronics" "Smartphones"
        "Alice" ⟨20, 1, 1, 10, 1, 1/2, 1⟩).profit ∧
      ∃ m, (enrich (mkRecordFromDraws 2022 ⟨2022, 1, 1⟩ 0 "North" "Electronics"
        "Smartphones" "Alice" ⟨20, 1, 1, 10, 1, 1/2, 1⟩)).profitMarginPct = some m ∧
        30 < m ∧ m ≤ 60 :=
  profit_margin_bounds 2022 ⟨2022, 1, 1⟩ 0 "North" "Electronics" "Smartphones" "Alice"
    ⟨20, 1, 1, 10, 1, 1/2, 1⟩ (by norm_num) (le_refl 2022)
    ⟨by norm_num, by norm_num, by norm_num, by norm_num, by norm_num, by norm_num,
      by norm_num, by norm_num, by norm_num, by norm_num, by norm_num, by norm_num,
      by norm_num, by norm_num⟩

end SalesDashboard
